import Mathlib

/-
Verification of the markup-tree construction and serialization core of the
`blender_export_svg` repository (file `export_svg_280.py`, classes `Spacer`,
`TAT_Entity`, `TAT_Node`, `TAT_Comment`, `SVG_Entity`, `SVG_Element`,
`SVG_Text`, `SVG_Group`, `SVG_Document` and the helper `validate_value`).

The Python code is shallowly embedded:
  * Python runtime values that can flow into the validation routines are
    modelled by the inductive `PyVal` (strings, ints, floats, bools, `None`,
    dicts).  A Python `float` is carried by its `str()` rendering, because the
    serializer only ever uses that rendering and never computes with it.
  * The three regular expressions of `TAT_Defaults` are translated into
    executable character-list matchers, following Python `re.fullmatch`
    semantics (in particular `.` does not match a newline).
  * The entity tree is the inductive `TAT_Entity`; mutation-style methods
    (`add_nodes`, `add_attrs`, `set_props`) become functions that return the
    updated state together with an optional raised error, so that partially
    applied mutations left behind by an exception are observable.
  * For the claims about object identity (shared attribute maps, render
    side effects) a small explicit heap is used; in particular Python's
    "mutable default argument" rule (a parameter default `dict = ...` is
    evaluated once, at function definition time, and the very same object is
    handed to every call that omits the argument) is modelled by fixed heap
    cells holding the per-class default dictionaries.
-/

/-- The two exception kinds raised by the validation core
(`TypeError` and `ValueError` in the source). -/
inductive PyError where
  | typeError
  | valueError
deriving Repr, DecidableEq

/-- Python runtime types relevant to the `type(value) not in valid_types`
check of `validate_value` (an exact-type check, so `bool` is distinct from
`int` even though Python's `bool` subclasses `int`). -/
inductive PyType where
  | tstr
  | tint
  | tfloat
  | tbool
  | tnone
  | tdict
deriving Repr, DecidableEq, BEq

/-- Python values that can reach the validation and rendering core.
A float is represented by its `str()` form (the code only ever prints it);
a dict is an insertion-ordered list of key/value pairs with arbitrary keys. -/
inductive PyVal where
  | pstr (s : String)
  | pint (n : Int)
  | pfloat (str_form : String)
  | pbool (b : Bool)
  | pnone
  | pdict (entries : List (PyVal × PyVal))
deriving Repr

/-- Python `type(v)` for the modelled values. -/
def pyTypeOf : PyVal → PyType
  | .pstr _ => .tstr
  | .pint _ => .tint
  | .pfloat _ => .tfloat
  | .pbool _ => .tbool
  | .pnone => .tnone
  | .pdict _ => .tdict

/-- Python `str(v)` for the values the serializer actually prints
(validated attribute values and comment contents are strings, ints or
floats).  The never-rendered cases are given their Python spellings where
they are simple; `str` of a dict is irrelevant to every claim and is
abstracted to the empty string. -/
def pyStr : PyVal → String
  | .pstr s => s
  | .pint n => toString n
  | .pfloat f => f
  | .pbool b => if b then "True" else "False"
  | .pnone => "None"
  | .pdict _ => ""

/- ----------------------------------------------------------------------
Regular-expression matchers of `TAT_Defaults`, translated from the patterns

  name_pattern      = ([_A-Za-z][_\-A-Za-z0-9]*)(:[_A-Za-z][_\-A-Za-z0-9]*)?
  attr_value_pattern = [^"<>]*
  comment_pattern    = ((?!--).)+

as used with `re.fullmatch`.
---------------------------------------------------------------------- -/

/-- The class `[A-Z]` of the patterns (ASCII in Python `re` character ranges). -/
def isAsciiUpper (c : Char) : Bool := 'A' ≤ c && c ≤ 'Z'

/-- The class `[a-z]` of the patterns. -/
def isAsciiLower (c : Char) : Bool := 'a' ≤ c && c ≤ 'z'

/-- The class `[0-9]` of the patterns. -/
def isAsciiDigit (c : Char) : Bool := '0' ≤ c && c ≤ '9'

/-- The class `[_A-Za-z]` opening each segment of `name_pattern`. -/
def isNameStart (c : Char) : Bool := c = '_' || isAsciiUpper c || isAsciiLower c

/-- The class `[_\-A-Za-z0-9]` continuing a segment of `name_pattern`. -/
def isNameChar (c : Char) : Bool :=
  c = '_' || c = '-' || isAsciiUpper c || isAsciiLower c || isAsciiDigit c

/-- Matcher `re.fullmatch(name_pattern, s)` on the character list of `s`: one
segment `[_A-Za-z][_\-A-Za-z0-9]*`, optionally followed by a colon and a
second such segment.  Since `:` is not a segment character, the greedy `*`
is maximal-munch and the match is decided by `dropWhile`. -/
def nameMatchL : List Char → Bool
  | [] => false
  | c :: cs =>
    isNameStart c &&
      (match cs.dropWhile isNameChar with
       | [] => true
       | r0 :: rest =>
         r0 = ':' &&
           (match rest with
            | [] => false
            | c2 :: cs2 => isNameStart c2 && (cs2.dropWhile isNameChar).isEmpty))

/-- Matcher `re.fullmatch(TAT_Defaults.name_pattern, s)` as a Boolean. -/
def nameMatch (s : String) : Bool := nameMatchL s.toList

/-- Matcher `re.fullmatch(TAT_Defaults.attr_value_pattern, s)`: every character is
outside the negated class, i.e. none of `"`, `<`, `>` (a negated class does
match newline). -/
def attrValueMatch (s : String) : Bool :=
  s.toList.all (fun c => !(c = '"' || c = '<' || c = '>'))

/-- Matcher `re.fullmatch(TAT_Defaults.comment_pattern, s)` on the character list:
`((?!--).)+` consumes one character per repetition, so the full match
succeeds iff the string is non-empty, no position starts the two-character
sequence `--`, and no character is a newline (Python `.` without `DOTALL`
does not match `\n`). -/
def commentMatchL : List Char → Bool
  | [] => false
  | [c] => c ≠ '\n'
  | c :: c2 :: rest =>
    c ≠ '\n' && !(c = '-' && c2 = '-') && commentMatchL (c2 :: rest)

/-- Matcher `re.fullmatch(TAT_Defaults.comment_pattern, s)` as a Boolean. -/
def commentMatch (s : String) : Bool := commentMatchL s.toList

/-- Translation of the helper

```
def validate_value(value, str_pattern=None, valid_types=[]):
    if valid_types and type(value) not in valid_types:
        raise TypeError(...)
    if str_pattern and isinstance(value, str) and not re.fullmatch(str_pattern, value):
        raise ValueError(...)
```

returning the raised exception, if any.  The pattern argument is the
already-translated Boolean matcher. -/
def validate_value (value : PyVal) (str_pat : Option (String → Bool))
    (valid_types : List PyType) : Option PyError :=
  if !valid_types.isEmpty && !(valid_types.contains (pyTypeOf value)) then
    some PyError.typeError
  else
    match str_pat, value with
    | some pat, .pstr s => if pat s then none else some PyError.valueError
    | _, _ => none

/- ----------------------------------------------------------------------
Spacer
---------------------------------------------------------------------- -/

/-- The `Spacer` class: an indentation level and an indent unit.  The source
stores arbitrary Python ints; the program only ever uses non-negative ones. -/
structure Spacer where
  level : Nat
  indent_size : Nat
deriving Repr, DecidableEq

/-- Method `Spacer.__str__`: `" " * (self._level * self._indent_size)`. -/
def Spacer.str (sp : Spacer) : String :=
  String.mk (List.replicate (sp.level * sp.indent_size) ' ')

/-- Method `Spacer.__add__`: a new `Spacer` with the level increased, same unit. -/
def Spacer.add (sp : Spacer) (diff : Nat) : Spacer :=
  ⟨sp.level + diff, sp.indent_size⟩

/- ----------------------------------------------------------------------
The entity tree (TAT_Entity / TAT_Node / TAT_Comment)
---------------------------------------------------------------------- -/

/-- The entity-tree layer: `TAT_Entity` raw text (field `_raw_content`),
`TAT_Node` (fields `_name`, `_attributes`, `_children`; the attribute dict is
an insertion-ordered string-keyed map), and `TAT_Comment` (field
`_content`). -/
inductive TAT_Entity where
  | raw (content : String)
  | node (name : String) (attrs : List (String × PyVal)) (children : List TAT_Entity)
  | comment (content : PyVal)
deriving Repr

/-- Python `str.join`: `strJoin sep [a, b, c] = a ++ sep ++ b ++ sep ++ c`. -/
def strJoin (sep : String) : List String → String
  | [] => ""
  | [x] => x
  | x :: y :: rest => x ++ sep ++ strJoin sep (y :: rest)

/-- The attribute part of `TAT_Node.format_string`: empty for an empty
attribute dict, otherwise a single leading space plus the space-joined
`name="value"` pairs in insertion order (values printed with `str`). -/
def formatAttrs (attrs : List (String × PyVal)) : String :=
  if attrs.isEmpty then ""
  else " " ++ strJoin " " (attrs.map (fun p => p.1 ++ "=\"" ++ pyStr p.2 ++ "\""))

mutual
/-- Method `format_string(spacer)` of the three entity classes:
  * `TAT_Entity`: the spacer followed by the raw content;
  * `TAT_Comment`: the spacer followed by `<!-- content -->`;
  * `TAT_Node`: self-closing when childless, otherwise the opening line,
    the children rendered at `spacer + 1`, and the closing line, joined
    with newlines. -/
def format_string (sp : Spacer) : TAT_Entity → String
  | .raw content => sp.str ++ content
  | .comment content => sp.str ++ "<!-- " ++ pyStr content ++ " -->"
  | .node name attrs children =>
    match children with
    | [] => sp.str ++ "<" ++ name ++ formatAttrs attrs ++ " />"
    | _ =>
      strJoin "\n"
        ((sp.str ++ "<" ++ name ++ formatAttrs attrs ++ ">")
          :: format_children (sp.add 1) children
          ++ [sp.str ++ "</" ++ name ++ ">"])

/-- The list comprehension `[c.format_string(spacer + 1) for c in children]`. -/
def format_children (sp : Spacer) : List TAT_Entity → List String
  | [] => []
  | c :: cs => format_string sp c :: format_children sp cs
end

/-- Constructor `TAT_Node.__init__(name)`: `validate_value(name, name_pattern, [str])`,
then a node with empty attribute dict and child list. -/
def TAT_Node_init (name : PyVal) : Except PyError TAT_Entity :=
  match validate_value name (some nameMatch) [PyType.tstr], name with
  | some e, _ => .error e
  | none, .pstr s => .ok (.node s [] [])
  | none, _ => .error PyError.typeError

/-- Constructor `TAT_Comment.__init__(content)`:
`validate_value(content, comment_pattern, [str, int, float])`, then a
comment storing the content. -/
def TAT_Comment_init (content : PyVal) : Except PyError TAT_Entity :=
  match validate_value content (some commentMatch) [PyType.tstr, PyType.tint, PyType.tfloat] with
  | some e => .error e
  | none => .ok (.comment content)

/- ----------------------------------------------------------------------
TAT_Node.add_nodes
---------------------------------------------------------------------- -/

/-- The possible runtime shapes of one positional argument of
`TAT_Node.add_nodes`: an instance of `TAT_Entity` (or of a subclass —
`TAT_Node` and `TAT_Comment` are the subclasses, all covered by the
`TAT_Entity` inductive), a `list`, `None`, or a value of any other type. -/
inductive NodeArg where
  | ent (e : TAT_Entity)
  | lst (args : List NodeArg)
  | nul
  | other
deriving Repr

mutual
/-- One iteration of the `for tag in tags` loop of `add_nodes`: an entity is
appended to `_children`, a list is recursed into via `self.add_nodes(*tag)`,
`None` is skipped, anything else raises `TypeError`.  The first component is
the `_children` list when the call finishes or the exception escapes. -/
def add_nodes_arg (children : List TAT_Entity) : NodeArg → List TAT_Entity × Option PyError
  | .ent e => (children ++ [e], none)
  | .lst args => add_nodes_list children args
  | .nul => (children, none)
  | .other => (children, some PyError.typeError)

/-- Method `TAT_Node.add_nodes(*tags)` acting on the `_children` field: the loop
over the positional arguments, stopping at the first raised exception
(appends made before it remain). -/
def add_nodes_list (children : List TAT_Entity) : List NodeArg → List TAT_Entity × Option PyError
  | [] => (children, none)
  | a :: rest =>
    match add_nodes_arg children a with
    | (cs, none) => add_nodes_list cs rest
    | (cs, some e) => (cs, some e)
end

/- ----------------------------------------------------------------------
TAT_Node.add_attrs
---------------------------------------------------------------------- -/

/-- Python dict item assignment `d[k] = v`: if the key is present its value
is replaced in place (the key keeps its insertion position), otherwise the
pair is appended at the end. -/
def setAttr (attrs : List (String × PyVal)) (n : String) (v : PyVal) : List (String × PyVal) :=
  if attrs.any (fun p => p.1 == n) then
    attrs.map (fun p => if p.1 = n then (p.1, v) else p)
  else attrs ++ [(n, v)]

/-- The `for name, value in attrs.items()` loop of `add_attrs` acting on the
`_attributes` dict: each name is validated with `validate_value(name,
name_pattern, [str])` (names coming from keyword arguments are strings, so
only the pattern can fail), each value with `validate_value(value,
attr_value_pattern, [str, int, float])`; a validated pair is stored with
dict assignment.  Processing stops at the first exception; pairs stored
before it remain. -/
def add_attrs_kw (attrs : List (String × PyVal)) :
    List (String × PyVal) → List (String × PyVal) × Option PyError
  | [] => (attrs, none)
  | (n, v) :: rest =>
    match validate_value (.pstr n) (some nameMatch) [PyType.tstr] with
    | some e => (attrs, some e)
    | none =>
      match validate_value v (some attrValueMatch) [PyType.tstr, PyType.tint, PyType.tfloat] with
      | some e => (attrs, some e)
      | none => add_attrs_kw (setAttr attrs n v) rest

/-- CPython's `**`-unpacking of a dict argument (`self.add_attrs(**d)`):
every key must be a string, checked before the callee body runs; if all keys
are strings the entries become keyword arguments in dict order, otherwise
the call raises `TypeError` ("keywords must be strings") with none of the
entries applied. -/
def dictKeyStrings : List (PyVal × PyVal) → Option (List (String × PyVal))
  | [] => some []
  | (.pstr k, v) :: rest => (dictKeyStrings rest).map (fun l => (k, v) :: l)
  | _ => none

/-- The `for d in dicts` loop of `add_attrs`: `None` arguments are skipped,
non-dict arguments raise `TypeError` (`validate_value(d, valid_types=[dict])`),
and a dict argument is merged via `self.add_attrs(**d)` — whose `**`
unpacking applies the whole dict entrywise, or raises `TypeError` before
applying anything when some key is not a string. -/
def add_attrs_dicts (attrs : List (String × PyVal)) :
    List PyVal → List (String × PyVal) × Option PyError
  | [] => (attrs, none)
  | d :: rest =>
    match d with
    | .pnone => add_attrs_dicts attrs rest
    | .pdict entries =>
      match dictKeyStrings entries with
      | none => (attrs, some PyError.typeError)
      | some kw =>
        match add_attrs_kw attrs kw with
        | (a2, none) => add_attrs_dicts a2 rest
        | (a2, some e) => (a2, some e)
    | _ => (attrs, some PyError.typeError)

/-- Method `TAT_Node.add_attrs(*dicts, **attrs)` acting on the `_attributes` dict:
the positional dict arguments are merged first, then the keyword
arguments. -/
def add_attrs_full (attrs : List (String × PyVal)) (dicts : List PyVal)
    (kwargs : List (String × PyVal)) : List (String × PyVal) × Option PyError :=
  match add_attrs_dicts attrs dicts with
  | (a2, none) => add_attrs_kw a2 kwargs
  | (a2, some e) => (a2, some e)

/-- Method `add_attrs` on a whole node, in exception style for the wrapper layer
(the partially mutated node is discarded when the call raises, because the
wrapper built it freshly inside the `export` expression). -/
def node_add_attrs (t : TAT_Entity) (dicts : List PyVal) (kwargs : List (String × PyVal)) :
    Except PyError TAT_Entity :=
  match t with
  | .node nm a c =>
    match add_attrs_full a dicts kwargs with
    | (a2, none) => .ok (.node nm a2 c)
    | (_, some e) => .error e
  | _ => .error PyError.typeError

/-- Method `add_nodes` on a whole node, in exception style for the wrapper layer. -/
def node_add_nodes (t : TAT_Entity) (args : List NodeArg) : Except PyError TAT_Entity :=
  match t with
  | .node nm a c =>
    match add_nodes_list c args with
    | (c2, none) => .ok (.node nm a c2)
    | (_, some e) => .error e
  | _ => .error PyError.typeError

/- ----------------------------------------------------------------------
SVG wrapper layer (SVG_Entity / SVG_Element / SVG_Text / SVG_Group /
SVG_Document), value view.  Wrapper state is its fields; `export` rebuilds
a fresh entity tree from the current fields on every call.
---------------------------------------------------------------------- -/

/-- The wrapper classes with their fields: `SVG_Entity` (`_raw_content`),
`SVG_Element` (`_name`, `_properties` — a string-keyed dict), `SVG_Text`
(tag name fixed to `"text"` by its constructor, plus `_text`), and
`SVG_Group` (`_name`, `_properties`, `_components`).  `SVG_Document` is an
`SVG_Group` with preset name and properties. -/
inductive SVG_Entity where
  | entity (raw : TAT_Entity)
  | element (name : String) (props : List (String × PyVal))
  | text (content : String) (props : List (String × PyVal))
  | group (name : String) (props : List (String × PyVal)) (components : List SVG_Entity)
deriving Repr

/-- Method `SVG_Element.export`: `TAT_Node(self._name).add_attrs(self._properties)`
— the properties dict is passed as a single positional dict argument, and
any validation failure propagates. -/
def element_export (name : String) (props : List (String × PyVal)) : Except PyError TAT_Entity :=
  match TAT_Node_init (.pstr name) with
  | .error e => .error e
  | .ok n => node_add_attrs n [PyVal.pdict (props.map (fun p => (PyVal.pstr p.1, p.2)))] []

mutual
/-- Method `export()` of each wrapper class:
  * `SVG_Entity`: returns the stored raw entity;
  * `SVG_Element`: `TAT_Node(name).add_attrs(properties)`;
  * `SVG_Text`: the element export plus one appended `TAT_Entity(text)` child;
  * `SVG_Group`: the element export plus
    `add_nodes([c.export() for c in components])` (the comprehension runs
    first, left to right, so the first failing component propagates). -/
def svg_export : SVG_Entity → Except PyError TAT_Entity
  | .entity raw => .ok raw
  | .element name props => element_export name props
  | .text content props =>
    match element_export "text" props with
    | .error e => .error e
    | .ok n => node_add_nodes n [NodeArg.ent (.raw content)]
  | .group name props components =>
    match element_export name props with
    | .error e => .error e
    | .ok n =>
      match svg_export_components components with
      | .error e => .error e
      | .ok kids => node_add_nodes n [NodeArg.lst (kids.map NodeArg.ent)]

/-- The comprehension `[c.export() for c in self._components]`. -/
def svg_export_components : List SVG_Entity → Except PyError (List TAT_Entity)
  | [] => .ok []
  | c :: cs =>
    match svg_export c with
    | .error e => .error e
    | .ok t =>
      match svg_export_components cs with
      | .error e => .error e
      | .ok ts => .ok (t :: ts)
end

/-- Method `SVG_Entity.__str__` (inherited by every wrapper):
`f"{self.export()}\n"`, i.e. the export rendered by its `format_string`
at the default spacer `Spacer(0, 1)`, followed by one newline. -/
def svg_str (e : SVG_Entity) : Except PyError String :=
  match svg_export e with
  | .error err => .error err
  | .ok t => .ok (format_string ⟨0, 1⟩ t ++ "\n")

/-- The preset properties of `SVG_Document.__init__` (width and height are
rendered into `f"{width}px"` strings). -/
def SVG_Document_props (width height : Int) : List (String × PyVal) :=
  [("xmlns", .pstr "http://www.w3.org/2000/svg"),
   ("xmlns:inkscape", .pstr "http://www.inkscape.org/namespaces/inkscape"),
   ("xmlns:xlink", .pstr "http://www.w3.org/1999/xlink"),
   ("width", .pstr (toString width ++ "px")),
   ("height", .pstr (toString height ++ "px"))]

/-- Constructor `SVG_Document(width, height)`: a group with tag name `svg`, the preset
namespace/size properties, and an empty component list. -/
def SVG_Document_mk (width height : Int) : SVG_Entity :=
  .group "svg" (SVG_Document_props width height) []

/- ----------------------------------------------------------------------
SVG wrapper layer, identity view: the `_properties` dicts live on a heap,
because `SVG_Element.__init__` stores the dict OBJECT it is given (no copy),
and the parameter default `properties: dict = ...empty dict...` is evaluated
once per class at function definition time, so every instance constructed
without an explicit properties argument holds a reference to the same shared
dict object of its class.
---------------------------------------------------------------------- -/

/-- The heap of property-dict objects, addressed by index. -/
structure PropHeap where
  dicts : List (List (String × PyVal))
deriving Repr

/-- The single default dict of `SVG_Element.__init__`. -/
def SVG_Element_default_ref : Nat := 0

/-- The single default dict of `SVG_Text.__init__`. -/
def SVG_Text_default_ref : Nat := 1

/-- The single default dict of `SVG_Group.__init__`. -/
def SVG_Group_default_ref : Nat := 2

/-- The heap at interpreter start: the three per-class default dicts, each
empty, already allocated (Python created them when the `def` lines ran). -/
def initPropHeap : PropHeap := ⟨[[], [], []]⟩

def PropHeap.get (h : PropHeap) (r : Nat) : List (String × PyVal) := h.dicts.getD r []

def PropHeap.put (h : PropHeap) (r : Nat) (d : List (String × PyVal)) : PropHeap :=
  ⟨h.dicts.set r d⟩

/-- An `SVG_Element` object under the identity view: its `_name` and the
reference to its `_properties` dict object. -/
structure SVG_ElemObj where
  name : String
  props_ref : Nat
deriving Repr, DecidableEq

/-- Constructor `SVG_Element(name)` with the `properties` argument omitted: the object
stores a reference to the class's one shared default dict. -/
def SVG_Element_new_default (name : String) : SVG_ElemObj :=
  ⟨name, SVG_Element_default_ref⟩

/-- Constructor `SVG_Group()` with the `properties` argument omitted: the shared
default dict of `SVG_Group.__init__`, tag name `g`. -/
def SVG_Group_new_default : SVG_ElemObj :=
  ⟨"g", SVG_Group_default_ref⟩

/-- Constructor `SVG_Element(name, properties)` with an explicit dict literal: the fresh
dict object is allocated on the heap and the element references it. -/
def SVG_Element_new (h : PropHeap) (name : String) (props : List (String × PyVal)) :
    SVG_ElemObj × PropHeap :=
  (⟨name, h.dicts.length⟩, ⟨h.dicts ++ [props]⟩)

/-- Method `SVG_Element.set_props(**properties)`: `self._properties[name] = value`
for each pair, mutating the referenced dict object in place (no
validation).  A positional dict argument reduces to this via
`self.set_props(**d)`. -/
def set_props_kw (h : PropHeap) (e : SVG_ElemObj) (kw : List (String × PyVal)) : PropHeap :=
  h.put e.props_ref (kw.foldl (fun d p => setAttr d p.1 p.2) (h.get e.props_ref))

/-- Method `SVG_Element.export` under the identity view: reads the current contents
of the referenced properties dict. -/
def element_export_heap (h : PropHeap) (e : SVG_ElemObj) : Except PyError TAT_Entity :=
  element_export e.name (h.get e.props_ref)

/- ----------------------------------------------------------------------
Entity tree, identity view: entity objects on a heap, for the claim that
`format_string` mutates nothing.  `format_string_heap` threads the heap
exactly as the Python recursion visits the objects and is fuelled, since a
heap can encode reference cycles the value view cannot.
---------------------------------------------------------------------- -/

/-- One entity object: as `TAT_Entity`, but children are references. -/
inductive EntityObj where
  | raw (content : String)
  | node (name : String) (attrs : List (String × PyVal)) (children : List Nat)
  | comment (content : PyVal)
deriving Repr

/-- The heap of entity objects, addressed by index. -/
structure EHeap where
  objs : List EntityObj
deriving Repr

mutual
/-- Method `format_string(spacer)` under the identity view: field reads and child
calls in source order, threading the heap; `none` on a dangling reference or
when the fuel is exhausted (a cyclic structure would not terminate in
Python either). -/
def format_string_heap (fuel : Nat) (h : EHeap) (sp : Spacer) (ref : Nat) :
    Option (String × EHeap) :=
  match fuel with
  | 0 => none
  | fuel' + 1 =>
    match h.objs.get? ref with
    | none => none
    | some (.raw content) => some (sp.str ++ content, h)
    | some (.comment content) => some (sp.str ++ "<!-- " ++ pyStr content ++ " -->", h)
    | some (.node name attrs children) =>
      match children with
      | [] => some (sp.str ++ "<" ++ name ++ formatAttrs attrs ++ " />", h)
      | _ =>
        match format_children_heap fuel' h (sp.add 1) children with
        | none => none
        | some (lines, h2) =>
          some (strJoin "\n"
            ((sp.str ++ "<" ++ name ++ formatAttrs attrs ++ ">")
              :: lines ++ [sp.str ++ "</" ++ name ++ ">"]), h2)
termination_by (fuel, 0)

/-- The child comprehension under the identity view. -/
def format_children_heap (fuel : Nat) (h : EHeap) (sp : Spacer) (rs : List Nat) :
    Option (List String × EHeap) :=
  match rs with
  | [] => some ([], h)
  | r :: rest =>
    match format_string_heap fuel h sp r with
    | none => none
    | some (s, h2) =>
      match format_children_heap fuel h2 sp rest with
      | none => none
      | some (ss, h3) => some (s :: ss, h3)
termination_by (fuel, rs.length + 1)
end

/- ----------------------------------------------------------------------
Specification-side definitions: these follow the wording of the
specification claims, for comparison with the source-translated functions.
---------------------------------------------------------------------- -/

/-- Claim-side segment grammar: "starts with a letter or underscore and
continues with zero or more letters, digits, hyphens, or underscores". -/
def segOk (l : List Char) : Prop :=
  ∃ c cs, l = c :: cs ∧
    (isAsciiUpper c = true ∨ isAsciiLower c = true ∨ c = '_') ∧
    ∀ d ∈ cs, isAsciiUpper d = true ∨ isAsciiLower d = true ∨ isAsciiDigit d = true ∨ d = '-' ∨ d = '_'

/-- Claim-side name grammar: "one or two colon-separated segments". -/
def nameOkSpec (s : String) : Prop :=
  segOk s.toList ∨ ∃ a b, s.toList = a ++ ':' :: b ∧ segOk a ∧ segOk b

/-- Claim-side "contains the two-character substring `--`". -/
def hasDblDash : List Char → Bool
  | [] => false
  | [_] => false
  | a :: b :: rest => (a = '-' && b = '-') || hasDblDash (b :: rest)

mutual
/-- Claim-side reading of one `add_nodes` argument: an entity contributes
itself, a list is flattened recursively in order, `None` contributes
nothing, and any other value makes the whole call a `TypeError`
(represented by `none`). -/
def flattenArgSpec : NodeArg → Option (List TAT_Entity)
  | .ent e => some [e]
  | .lst args => flattenArgsSpec args
  | .nul => some []
  | .other => none

/-- Claim-side reading of an `add_nodes` argument list. -/
def flattenArgsSpec : List NodeArg → Option (List TAT_Entity)
  | [] => some []
  | a :: rest =>
    match flattenArgSpec a, flattenArgsSpec rest with
    | some xs, some ys => some (xs ++ ys)
    | _, _ => none
end

/-- The last character of a rendered string, for the trailing-newline claim. -/
def lastChar (s : String) : Option Char := s.data.getLast?

/- ----------------------------------------------------------------------
Helper lemmas
---------------------------------------------------------------------- -/

theorem strJoin_cons (sep x : String) (ys : List String) (h : ys ≠ []) :
    strJoin sep (x :: ys) = x ++ sep ++ strJoin sep ys := by
  cases ys with
  | nil => exact absurd rfl h
  | cons y rest => rfl

theorem strJoin_append_single (sep z : String) (ys : List String) (h : ys ≠ []) :
    strJoin sep (ys ++ [z]) = strJoin sep ys ++ sep ++ z := by
  induction ys with
  | nil => exact absurd rfl h
  | cons y rest ih =>
    cases rest with
    | nil => rfl
    | cons y2 rest2 =>
      rw [List.cons_append, strJoin_cons sep y ((y2 :: rest2) ++ [z]) (by simp),
        strJoin_cons sep y (y2 :: rest2) (by simp), ih (by simp)]
      simp [String.append_assoc]

theorem format_children_eq_map (sp : Spacer) (l : List TAT_Entity) :
    format_children sp l = l.map (format_string sp) := by
  induction l with
  | nil => rfl
  | cons c cs ih => simp [format_children, ih]

theorem isNameStart_iff (c : Char) :
    isNameStart c = true ↔ (isAsciiUpper c = true ∨ isAsciiLower c = true ∨ c = '_') := by
  simp only [isNameStart, Bool.or_eq_true, decide_eq_true_eq]
  tauto

theorem isNameChar_iff (c : Char) :
    isNameChar c = true ↔
      (isAsciiUpper c = true ∨ isAsciiLower c = true ∨ isAsciiDigit c = true ∨ c = '-' ∨ c = '_') := by
  simp only [isNameChar, Bool.or_eq_true, decide_eq_true_eq]
  tauto

theorem isNameChar_colon : isNameChar ':' = false := by decide

theorem dropWhile_append_all {p : Char → Bool} {t : List Char} (r : List Char)
    (h : ∀ x ∈ t, p x = true) : (t ++ r).dropWhile p = r.dropWhile p := by
  induction t with
  | nil => rfl
  | cons a t' ih =>
    have ha : p a = true := h a (by simp)
    simp only [List.cons_append, List.dropWhile_cons, ha, if_true]
    exact ih (fun x hx => h x (by simp [hx]))

/-- The source name matcher agrees with the claim-side grammar. -/
theorem nameMatchL_iff (l : List Char) :
    nameMatchL l = true ↔ (segOk l ∨ ∃ a b, l = a ++ ':' :: b ∧ segOk a ∧ segOk b) := by
  constructor
  · intro hm
    cases l with
    | nil => simp [nameMatchL] at hm
    | cons c cs =>
      rw [show nameMatchL (c :: cs) = (isNameStart c &&
          (match cs.dropWhile isNameChar with
           | [] => true
           | r0 :: rest =>
             r0 = ':' &&
               (match rest with
                | [] => false
                | c2 :: cs2 => isNameStart c2 && (cs2.dropWhile isNameChar).isEmpty))) from rfl]
        at hm
      cases hdw : cs.dropWhile isNameChar with
      | nil =>
        rw [hdw] at hm
        simp only [Bool.and_true] at hm
        left
        refine ⟨c, cs, rfl, (isNameStart_iff c).mp hm, fun d hd => ?_⟩
        exact (isNameChar_iff d).mp (List.dropWhile_eq_nil_iff.mp hdw d hd)
      | cons r0 rrest =>
        rw [hdw] at hm
        cases rrest with
        | nil => simp at hm
        | cons c2 cs2 =>
          simp only [Bool.and_eq_true, decide_eq_true_eq, List.isEmpty_iff] at hm
          obtain ⟨hc, hcol, hc2, hdw2⟩ := hm
          subst hcol
          right
          refine ⟨c :: cs.takeWhile isNameChar, c2 :: cs2, ?_, ?_, ?_⟩
          · have hsplit : cs.takeWhile isNameChar ++ cs.dropWhile isNameChar = cs :=
              List.takeWhile_append_dropWhile isNameChar cs
            rw [hdw] at hsplit
            rw [List.cons_append, hsplit]
          · refine ⟨c, cs.takeWhile isNameChar, rfl, (isNameStart_iff c).mp hc, fun d hd => ?_⟩
            exact (isNameChar_iff d).mp (List.mem_takeWhile_imp hd)
          · refine ⟨c2, cs2, rfl, (isNameStart_iff c2).mp hc2, fun d hd => ?_⟩
            exact (isNameChar_iff d).mp (List.dropWhile_eq_nil_iff.mp hdw2 d hd)
  · intro hspec
    cases hspec with
    | inl hseg =>
      obtain ⟨c, cs, rfl, hc, hcs⟩ := hseg
      have hdw : cs.dropWhile isNameChar = [] :=
        List.dropWhile_eq_nil_iff.mpr (fun x hx => (isNameChar_iff x).mpr (hcs x hx))
      simp [nameMatchL, hdw, (isNameStart_iff c).mpr hc]
    | inr hsplit =>
      obtain ⟨a, b, rfl, ⟨c, cs1, rfl, hc, hcs1⟩, hb⟩ := hsplit
      obtain ⟨c2, cs2, rfl, hc2, hcs2⟩ := hb
      have hall1 : ∀ x ∈ cs1, isNameChar x = true :=
        fun x hx => (isNameChar_iff x).mpr (hcs1 x hx)
      have hdw : (cs1 ++ ':' :: c2 :: cs2).dropWhile isNameChar = ':' :: c2 :: cs2 := by
        rw [dropWhile_append_all (':' :: c2 :: cs2) hall1]
        simp [List.dropWhile_cons, isNameChar_colon]
      have hdw2 : cs2.dropWhile isNameChar = [] :=
        List.dropWhile_eq_nil_iff.mpr (fun x hx => (isNameChar_iff x).mpr (hcs2 x hx))
      simp [nameMatchL, hdw, hdw2, (isNameStart_iff c).mpr hc, (isNameStart_iff c2).mpr hc2]

/-- The source comment matcher in terms of the claim-side notions:
non-empty, no `--` substring, and (beyond the claim) no newline. -/
theorem commentMatchL_iff (l : List Char) :
    commentMatchL l = true ↔ (l ≠ [] ∧ hasDblDash l = false ∧ ∀ c ∈ l, c ≠ '\n') := by
  induction l with
  | nil => simp [commentMatchL]
  | cons a t ih =>
    cases t with
    | nil => simp [commentMatchL, hasDblDash]
    | cons b r =>
      rw [show commentMatchL (a :: b :: r)
          = (a ≠ '\n' && !(a = '-' && b = '-') && commentMatchL (b :: r)) from rfl]
      rw [show hasDblDash (a :: b :: r) = ((a = '-' && b = '-') || hasDblDash (b :: r)) from rfl]
      simp only [Bool.and_eq_true, ih, decide_eq_true_eq, Bool.not_eq_true',
        Bool.and_eq_false_iff, Bool.or_eq_false_iff, decide_eq_false_iff_not,
        List.forall_mem_cons, ne_eq]
      constructor
      · rintro ⟨⟨h1, h2⟩, -, h3, h4⟩
        exact ⟨List.cons_ne_nil a (b :: r), ⟨h2, h3⟩, h1, h4⟩
      · rintro ⟨-, ⟨h2, h3⟩, h1, h4⟩
        exact ⟨⟨h1, h2⟩, List.cons_ne_nil b r, h3, h4⟩

theorem setAttr_any_of_mem {attrs : List (String × PyVal)} {n : String}
    (h : n ∈ attrs.map Prod.fst) : attrs.any (fun p => p.1 == n) = true := by
  simp only [List.any_eq_true, beq_iff_eq]
  obtain ⟨p, hp, hpn⟩ := List.mem_map.mp h
  exact ⟨p, hp, hpn⟩

/-- Updating a present key keeps the key sequence (hence insertion order and
dict size) unchanged. -/
theorem setAttr_keys_of_mem {attrs : List (String × PyVal)} {n : String} (v : PyVal)
    (h : n ∈ attrs.map Prod.fst) :
    (setAttr attrs n v).map Prod.fst = attrs.map Prod.fst := by
  simp only [setAttr, setAttr_any_of_mem h, if_true, List.map_map]
  apply List.map_congr_left
  intro p _
  by_cases hp : p.1 = n <;> simp [hp]

theorem lookup_update_of_mem {n : String} (v : PyVal) :
    ∀ attrs : List (String × PyVal), n ∈ attrs.map Prod.fst →
      (attrs.map (fun p => if p.1 = n then (p.1, v) else p)).lookup n = some v
  | [], h => by simp at h
  | p :: rest, h => by
    by_cases hp : p.1 = n
    · subst hp
      have hhead : (if p.1 = p.1 then (p.1, v) else p) = (p.1, v) := if_pos rfl
      rw [List.map_cons, hhead]
      simp [List.lookup]
    · have hmem : n ∈ rest.map Prod.fst := by
        rcases List.mem_map.mp h with ⟨q, hq, hqn⟩
        rcases List.mem_cons.mp hq with rfl | hq2
        · exact absurd hqn hp
        · exact List.mem_map.mpr ⟨q, hq2, hqn⟩
      have hne : (n == p.1) = false := beq_eq_false_iff_ne.mpr (Ne.symm hp)
      simp only [List.map_cons, if_neg hp]
      simp only [List.lookup, hne, cond_false]
      exact lookup_update_of_mem v rest hmem

/-- Updating a present key stores the new value at that key. -/
theorem setAttr_lookup_of_mem {attrs : List (String × PyVal)} {n : String} (v : PyVal)
    (h : n ∈ attrs.map Prod.fst) :
    (setAttr attrs n v).lookup n = some v := by
  simp only [setAttr, setAttr_any_of_mem h, if_true]
  exact lookup_update_of_mem v attrs h

theorem lastChar_append (a b : String) (h : b.data ≠ []) :
    lastChar (a ++ b) = lastChar b := by
  simp only [lastChar, String.data_append]
  exact List.getLast?_append_of_ne_nil a.data h

/-- A successful component-export run pairs every component with its export,
in insertion order. -/
theorem svg_export_components_forall (cs : List SVG_Entity) (kids : List TAT_Entity)
    (h : svg_export_components cs = .ok kids) :
    List.Forall₂ (fun c t => svg_export c = .ok t) cs kids := by
  induction cs generalizing kids with
  | nil =>
    rw [show svg_export_components [] = Except.ok [] from rfl] at h
    cases h
    exact List.Forall₂.nil
  | cons c rest ih =>
    rw [show svg_export_components (c :: rest) = (match svg_export c with
        | .error e => .error e
        | .ok t =>
          match svg_export_components rest with
          | .error e => .error e
          | .ok ts => .ok (t :: ts)) from rfl] at h
    cases hc : svg_export c with
    | error e => rw [hc] at h; cases h
    | ok t =>
      rw [hc] at h
      cases hrest : svg_export_components rest with
      | error e => rw [hrest] at h; cases h
      | ok ts =>
        rw [hrest] at h
        cases h
        exact List.Forall₂.cons hc (ih ts hrest)

/-- The recursive `add_nodes` agrees with the claim-side flattening: when no
argument (at any nesting depth) has a disallowed type, the flattened
entities are appended to the child list in order and no error is raised;
otherwise the call raises `TypeError`. -/
theorem add_nodes_list_spec : ∀ (children : List TAT_Entity) (args : List NodeArg),
    (∀ es, flattenArgsSpec args = some es →
      add_nodes_list children args = (children ++ es, none)) ∧
    (flattenArgsSpec args = none →
      (add_nodes_list children args).2 = some PyError.typeError) := by
  apply add_nodes_list.induct
    (fun children arg =>
      (∀ es, flattenArgSpec arg = some es →
        add_nodes_arg children arg = (children ++ es, none)) ∧
      (flattenArgSpec arg = none →
        (add_nodes_arg children arg).2 = some PyError.typeError))
    (fun children args =>
      (∀ es, flattenArgsSpec args = some es →
        add_nodes_list children args = (children ++ es, none)) ∧
      (flattenArgsSpec args = none →
        (add_nodes_list children args).2 = some PyError.typeError))
  · intro children e
    exact ⟨(fun es hes => by cases hes; rfl), (fun hn => by cases hn)⟩
  · intro children args m2
    exact ⟨fun es hes => m2.1 es hes, fun hn => m2.2 hn⟩
  · intro children
    exact ⟨(fun es hes => by cases hes; simp [add_nodes_arg]), (fun hn => by cases hn)⟩
  · intro children
    exact ⟨(fun es hes => by cases hes), (fun _ => rfl)⟩
  · intro children
    exact ⟨(fun es hes => by cases hes; simp [add_nodes_list]), (fun hn => by cases hn)⟩
  · intro children a rest cs hok m1 m2
    have hcs : ∀ xs, flattenArgSpec a = some xs → cs = children ++ xs := by
      intro xs ha
      have hm := m1.1 xs ha
      rw [hok] at hm
      exact congrArg Prod.fst hm
    have hunf : add_nodes_list children (a :: rest) = add_nodes_list cs rest := by
      rw [show add_nodes_list children (a :: rest)
          = (match add_nodes_arg children a with
             | (cs2, none) => add_nodes_list cs2 rest
             | (cs2, some e) => (cs2, some e)) from rfl, hok]
    constructor
    · intro es hes
      rw [show flattenArgsSpec (a :: rest)
          = (match flattenArgSpec a, flattenArgsSpec rest with
             | some xs, some ys => some (xs ++ ys)
             | _, _ => none) from rfl] at hes
      cases ha : flattenArgSpec a with
      | none =>
        have hm := m1.2 ha
        rw [hok] at hm
        cases hm
      | some xs =>
        rw [ha] at hes
        cases hrest : flattenArgsSpec rest with
        | none => rw [hrest] at hes; cases hes
        | some ys =>
          rw [hrest] at hes
          cases hes
          rw [hunf, (m2.1 ys hrest : _), hcs xs ha, List.append_assoc]
    · intro hn
      rw [show flattenArgsSpec (a :: rest)
          = (match flattenArgSpec a, flattenArgsSpec rest with
             | some xs, some ys => some (xs ++ ys)
             | _, _ => none) from rfl] at hn
      cases ha : flattenArgSpec a with
      | none =>
        have hm := m1.2 ha
        rw [hok] at hm
        cases hm
      | some xs =>
        rw [ha] at hn
        cases hrest : flattenArgsSpec rest with
        | some ys => rw [hrest] at hn; cases hn
        | none =>
          rw [hunf]
          exact m2.2 hrest
  · intro children a rest cs e herr m1
    have hunf : add_nodes_list children (a :: rest) = (cs, some e) := by
      rw [show add_nodes_list children (a :: rest)
          = (match add_nodes_arg children a with
             | (cs2, none) => add_nodes_list cs2 rest
             | (cs2, some e2) => (cs2, some e2)) from rfl, herr]
    constructor
    · intro es hes
      rw [show flattenArgsSpec (a :: rest)
          = (match flattenArgSpec a, flattenArgsSpec rest with
             | some xs, some ys => some (xs ++ ys)
             | _, _ => none) from rfl] at hes
      cases ha : flattenArgSpec a with
      | none => rw [ha] at hes; cases hes
      | some xs =>
        have hm := m1.1 xs ha
        rw [herr] at hm
        injection hm with h1 h2
        cases h2
    · intro hn
      cases ha : flattenArgSpec a with
      | some xs =>
        have hm := m1.1 xs ha
        rw [herr] at hm
        injection hm with h1 h2
        cases h2
      | none =>
        have hm := m1.2 ha
        rw [herr] at hm
        rw [hunf]
        exact hm

theorem format_string_heap_zero (h : EHeap) (sp : Spacer) (ref : Nat) :
    format_string_heap 0 h sp ref = none := by
  rw [format_string_heap.eq_def]

theorem format_string_heap_succ (fuel : Nat) (h : EHeap) (sp : Spacer) (ref : Nat) :
    format_string_heap (fuel + 1) h sp ref
      = (match h.objs.get? ref with
         | none => none
         | some (.raw content) => some (sp.str ++ content, h)
         | some (.comment content) => some (sp.str ++ "<!-- " ++ pyStr content ++ " -->", h)
         | some (.node name attrs children) =>
           match children with
           | [] => some (sp.str ++ "<" ++ name ++ formatAttrs attrs ++ " />", h)
           | _ =>
             match format_children_heap fuel h (sp.add 1) children with
             | none => none
             | some (lines, h2) =>
               some (strJoin "\n"
                 ((sp.str ++ "<" ++ name ++ formatAttrs attrs ++ ">")
                   :: lines ++ [sp.str ++ "</" ++ name ++ ">"]), h2)) := by
  rw [format_string_heap.eq_def]

theorem format_children_heap_nil (fuel : Nat) (h : EHeap) (sp : Spacer) :
    format_children_heap fuel h sp [] = some ([], h) := by
  rw [format_children_heap.eq_def]

theorem format_children_heap_cons (fuel : Nat) (h : EHeap) (sp : Spacer) (r : Nat) (rest : List Nat) :
    format_children_heap fuel h sp (r :: rest)
      = (match format_string_heap fuel h sp r with
         | none => none
         | some (s, h2) =>
           match format_children_heap fuel h2 sp rest with
           | none => none
           | some (ss, h3) => some (s :: ss, h3)) := by
  rw [format_children_heap.eq_def]

/-- Rendering through the heap never modifies the heap, at any fuel. -/
theorem format_string_heap_unchanged :
    ∀ (fuel : Nat) (h : EHeap) (sp : Spacer) (ref : Nat) (s : String) (h' : EHeap),
      format_string_heap fuel h sp ref = some (s, h') → h' = h := by
  intro fuel
  induction fuel with
  | zero =>
    intro h sp ref s h' heq
    rw [format_string_heap_zero] at heq
    cases heq
  | succ n ih =>
    have hch : ∀ (rs : List Nat) (h : EHeap) (sp : Spacer) (ss : List String) (h' : EHeap),
        format_children_heap n h sp rs = some (ss, h') → h' = h := by
      intro rs
      induction rs with
      | nil =>
        intro h sp ss h' heq
        rw [format_children_heap_nil] at heq
        cases heq
        rfl
      | cons r rest ihr =>
        intro h sp ss h' heq
        rw [format_children_heap_cons] at heq
        cases hfs : format_string_heap n h sp r with
        | none =>
          simp only [hfs] at heq
          cases heq
        | some p =>
          obtain ⟨s1, h2⟩ := p
          simp only [hfs] at heq
          cases hfc : format_children_heap n h2 sp rest with
          | none =>
            simp only [hfc] at heq
            cases heq
          | some q =>
            obtain ⟨ss2, h3⟩ := q
            simp only [hfc] at heq
            cases heq
            exact (ihr h2 sp ss2 _ hfc).trans (ih h sp r s1 h2 hfs)
    intro h sp ref s h' heq
    rw [format_string_heap_succ] at heq
    cases hobj : h.objs.get? ref with
    | none =>
      simp only [hobj] at heq
      cases heq
    | some obj =>
      cases obj with
      | raw content =>
        simp only [hobj] at heq
        cases heq
        rfl
      | comment content =>
        simp only [hobj] at heq
        cases heq
        rfl
      | node name attrs children =>
        cases children with
        | nil =>
          simp only [hobj] at heq
          cases heq
          rfl
        | cons c0 crest =>
          simp only [hobj] at heq
          cases hfc : format_children_heap n h (sp.add 1) (c0 :: crest) with
          | none =>
            simp only [hfc] at heq
            cases heq
          | some q =>
            obtain ⟨lines, h2⟩ := q
            simp only [hfc] at heq
            cases heq
            exact hch (c0 :: crest) h (sp.add 1) lines _ hfc

theorem validate_name_eq (n : String) :
    validate_value (.pstr n) (some nameMatch) [PyType.tstr]
      = (if nameMatch n then none else some PyError.valueError) := rfl

theorem validate_attr_value_str (s : String) :
    validate_value (.pstr s) (some attrValueMatch) [PyType.tstr, PyType.tint, PyType.tfloat]
      = (if attrValueMatch s then none else some PyError.valueError) := rfl

theorem lastChar_format_string_node (sp : Spacer) (name : String)
    (attrs : List (String × PyVal)) (children : List TAT_Entity) :
    lastChar (format_string sp (.node name attrs children)) = some '>' := by
  cases children with
  | nil =>
    show lastChar (sp.str ++ "<" ++ name ++ formatAttrs attrs ++ " />") = some '>'
    rw [lastChar_append _ " />" (by decide)]
    rfl
  | cons c cs =>
    show lastChar (strJoin "\n"
        ((sp.str ++ "<" ++ name ++ formatAttrs attrs ++ ">")
          :: format_children (sp.add 1) (c :: cs)
          ++ [sp.str ++ "</" ++ name ++ ">"])) = some '>'
    rw [strJoin_append_single "\n" (sp.str ++ "</" ++ name ++ ">") _ (List.cons_ne_nil _ _),
      lastChar_append _ (sp.str ++ "</" ++ name ++ ">") (by simp [String.data_append]),
      lastChar_append _ ">" (by decide)]
    rfl

theorem lastChar_format_string_comment (sp : Spacer) (content : PyVal) :
    lastChar (format_string sp (.comment content)) = some '>' := by
  show lastChar (sp.str ++ "<!-- " ++ pyStr content ++ " -->") = some '>'
  rw [lastChar_append _ " -->" (by decide)]
  rfl

theorem add_nodes_list_ents (kids : List TAT_Entity) :
    ∀ children : List TAT_Entity,
      add_nodes_list children (kids.map NodeArg.ent) = (children ++ kids, none) := by
  induction kids with
  | nil => intro children; simp [add_nodes_list]
  | cons k ks ih =>
    intro children
    rw [List.map_cons]
    show add_nodes_list (children ++ [k]) (ks.map NodeArg.ent) = (children ++ k :: ks, none)
    rw [ih (children ++ [k])]
    simp

/- ----------------------------------------------------------------------
Claim theorems
---------------------------------------------------------------------- -/

/-- C1: `format_string(spacer)` of a `TAT_Node` renders a non-empty
attribute map as `name="value"` pairs joined by single spaces, prefixed by a
single space, in insertion order; a node with zero children as the single
self-closing line `spacer <name attrs />`; a node with children as the
opening line, each child's rendering at `spacer + 1` in child-list order,
and the closing line at the original indent, joined by newlines; and the
nested `root`/`inner`/`nested` example at indent unit 1 renders exactly
`"<root>\n <inner />\n <nested>\n  <inner />\n </nested>\n</root>"`. -/
theorem c1_format_string_spec :
    (∀ (sp : Spacer) (name : String) (attrs : List (String × PyVal)),
      format_string sp (.node name attrs [])
        = sp.str ++ "<" ++ name
          ++ (if attrs.isEmpty then ""
              else " " ++ strJoin " " (attrs.map (fun p => p.1 ++ "=\"" ++ pyStr p.2 ++ "\"")))
          ++ " />") ∧
    (∀ (sp : Spacer) (name : String) (attrs : List (String × PyVal))
        (children : List TAT_Entity), children ≠ [] →
      format_string sp (.node name attrs children)
        = (sp.str ++ "<" ++ name
            ++ (if attrs.isEmpty then ""
                else " " ++ strJoin " " (attrs.map (fun p => p.1 ++ "=\"" ++ pyStr p.2 ++ "\"")))
            ++ ">")
          ++ "\n" ++ strJoin "\n" (children.map (format_string (sp.add 1)))
          ++ "\n" ++ (sp.str ++ "</" ++ name ++ ">")) ∧
    format_string ⟨0, 1⟩
        (.node "root" [] [.node "inner" [] [], .node "nested" [] [.node "inner" [] []]])
      = "<root>\n <inner />\n <nested>\n  <inner />\n </nested>\n</root>" := by
  refine ⟨fun sp name attrs => rfl, ?_, rfl⟩
  intro sp name attrs children hne
  cases children with
  | nil => exact absurd rfl hne
  | cons c cs =>
    show strJoin "\n"
        ((sp.str ++ "<" ++ name ++ formatAttrs attrs ++ ">")
          :: format_children (sp.add 1) (c :: cs)
          ++ [sp.str ++ "</" ++ name ++ ">"])
      = _
    rw [format_children_eq_map,
      strJoin_append_single "\n" _ _ (List.cons_ne_nil _ _),
      strJoin_cons "\n" _ _ (by simp)]
    rfl

/-- C1 witness: the two-child conjunct applied at a concrete node. -/
theorem c1_format_string_spec_witness :
    format_string ⟨0, 1⟩ (.node "root" [] [.node "inner" [] []])
      = "<root>\n <inner />\n</root>" := by
  have h := c1_format_string_spec.2.1 ⟨0, 1⟩ "root" []
    [.node "inner" [] []] (List.cons_ne_nil _ _)
  rw [h]
  rfl

/-- C3: `add_nodes` appends `TAT_Entity` arguments to the child list in
argument order, recursively flattens list arguments (their elements treated
as further arguments in order), skips `None` arguments, raises `TypeError`
on any other argument type, and on success returns the same node with only
the child list extended. -/
theorem c3_add_nodes_spec :
    ∀ (name : String) (attrs : List (String × PyVal)) (children : List TAT_Entity)
      (args : List NodeArg),
      (∀ es, flattenArgsSpec args = some es →
        node_add_nodes (.node name attrs children) args
          = .ok (.node name attrs (children ++ es))) ∧
      (flattenArgsSpec args = none →
        node_add_nodes (.node name attrs children) args = .error PyError.typeError) := by
  intro name attrs children args
  constructor
  · intro es hes
    have hl := (add_nodes_list_spec children args).1 es hes
    simp [node_add_nodes, hl]
  · intro hn
    have hl := (add_nodes_list_spec children args).2 hn
    rcases hr : add_nodes_list children args with ⟨cs, err⟩
    rw [hr] at hl
    simp at hl
    simp [node_add_nodes, hr, hl]

/-- C3 witness: entities, a nested list and `None` at concrete inputs,
plus a `TypeError` from an invalid argument. -/
theorem c3_add_nodes_spec_witness :
    node_add_nodes (.node "root" [] []) [.ent (.node "inner1" [] []),
        .lst [.ent (.node "inner2" [] []), .nul], .ent (.raw "t")]
      = .ok (.node "root" [] [.node "inner1" [] [], .node "inner2" [] [], .raw "t"]) ∧
    node_add_nodes (.node "root" [] []) [.ent (.node "inner1" [] []), .other]
      = .error PyError.typeError := by
  constructor
  · exact (c3_add_nodes_spec "root" [] [] _).1
      [.node "inner1" [] [], .node "inner2" [] [], .raw "t"] rfl
  · exact (c3_add_nodes_spec "root" [] [] _).2 rfl

/-- C4: `TAT_Node(n)` succeeds exactly for strings made of one or two
colon-separated segments, each starting with a letter or underscore and
continuing with letters, digits, hyphens or underscores; a non-string name
raises `TypeError`; a non-matching string — including the empty string, a
leading digit, or two colons — raises `ValueError`. -/
theorem c4_node_name_validation :
    (∀ s : String, (∃ t, TAT_Node_init (.pstr s) = .ok t) ↔ nameOkSpec s) ∧
    (∀ s : String, ¬ nameOkSpec s → TAT_Node_init (.pstr s) = .error PyError.valueError) ∧
    (∀ v : PyVal, pyTypeOf v ≠ PyType.tstr → TAT_Node_init v = .error PyError.typeError) ∧
    TAT_Node_init (.pstr "") = .error PyError.valueError ∧
    TAT_Node_init (.pstr "2abc") = .error PyError.valueError ∧
    TAT_Node_init (.pstr "a:b:c") = .error PyError.valueError ∧
    TAT_Node_init (.pstr "a::b") = .error PyError.valueError := by
  refine ⟨?_, ?_, ?_, rfl, rfl, rfl, rfl⟩
  · intro s
    constructor
    · rintro ⟨t, ht⟩
      by_cases hnm : nameMatch s
      · exact (nameMatchL_iff s.toList).mp hnm
      · have herr : TAT_Node_init (.pstr s) = .error PyError.valueError := by
          simp [TAT_Node_init, validate_name_eq, hnm]
        rw [herr] at ht
        cases ht
    · intro hok
      have hnm : nameMatch s = true := (nameMatchL_iff s.toList).mpr hok
      exact ⟨.node s [] [], by simp [TAT_Node_init, validate_name_eq, hnm]⟩
  · intro s hns
    have hnm : nameMatch s = false := by
      by_contra hcon
      exact hns ((nameMatchL_iff s.toList).mp (by simpa using hcon))
    simp [TAT_Node_init, validate_name_eq, hnm]
  · intro v hv
    cases v with
    | pstr s => exact absurd rfl hv
    | pint n => rfl
    | pfloat f => rfl
    | pbool b => rfl
    | pnone => rfl
    | pdict d => rfl

/-- C4 witness: a valid name is accepted, a non-string name rejected. -/
theorem c4_node_name_validation_witness :
    (∃ t, TAT_Node_init (.pstr "abc") = .ok t) ∧
    TAT_Node_init (.pint 7) = .error PyError.typeError := by
  constructor
  · exact (c4_node_name_validation.1 "abc").mpr
      (Or.inl ⟨'a', ['b', 'c'], rfl, by decide, by decide⟩)
  · exact c4_node_name_validation.2.2.1 (.pint 7) (by decide)

/-- C5 counterexample: the claim's "ValueError if and only if c is empty or
contains `--`" fails on `"a\nb"`: the string is non-empty and contains no
`--`, yet the constructor raises `ValueError`, because `.` in the pattern
`((?!--).)+` does not match a newline under `re.fullmatch`. -/
theorem c5_comment_newline_counterexample :
    ("a\nb" : String).toList ≠ [] ∧
    hasDblDash ("a\nb" : String).toList = false ∧
    TAT_Comment_init (.pstr "a\nb") = .error PyError.valueError := by
  refine ⟨by decide, by decide, rfl⟩

/-- C5 amended: `TAT_Comment(c)` raises `TypeError` unless `c` is a string,
int or float; for a string it raises `ValueError` exactly when the string is
empty, contains `--`, or contains a newline; otherwise it succeeds (so a
string ending in a single `-` is accepted), and `TAT_Comment(123)` renders
as `"<!-- 123 -->"` at level 0. -/
theorem c5_comment_validation_amended :
    (∀ v : PyVal, pyTypeOf v ≠ PyType.tstr → pyTypeOf v ≠ PyType.tint →
      pyTypeOf v ≠ PyType.tfloat → TAT_Comment_init v = .error PyError.typeError) ∧
    (∀ s : String, TAT_Comment_init (.pstr s) = .error PyError.valueError
      ↔ (s.toList = [] ∨ hasDblDash s.toList = true ∨ '\n' ∈ s.toList)) ∧
    (∀ s : String, TAT_Comment_init (.pstr s) = .ok (.comment (.pstr s))
      ↔ (s.toList ≠ [] ∧ hasDblDash s.toList = false ∧ '\n' ∉ s.toList)) ∧
    TAT_Comment_init (.pstr "abc-") = .ok (.comment (.pstr "abc-")) ∧
    TAT_Comment_init (.pint 123) = .ok (.comment (.pint 123)) ∧
    format_string ⟨0, 1⟩ (.comment (.pint 123)) = "<!-- 123 -->" := by
  have hstr : ∀ s : String, TAT_Comment_init (.pstr s)
      = (if commentMatch s then .ok (.comment (.pstr s)) else .error PyError.valueError) := by
    intro s
    rw [show TAT_Comment_init (.pstr s)
        = (match (if commentMatch s then none else some PyError.valueError : Option PyError) with
           | some e => Except.error e
           | none => Except.ok (.comment (.pstr s))) from rfl]
    by_cases hm : commentMatch s <;> simp [hm]
  refine ⟨?_, ?_, ?_, rfl, rfl, rfl⟩
  · intro v h1 h2 h3
    cases v with
    | pstr s => exact absurd rfl h1
    | pint n => exact absurd rfl h2
    | pfloat f => exact absurd rfl h3
    | pbool b => rfl
    | pnone => rfl
    | pdict d => rfl
  · intro s
    rw [hstr s]
    by_cases hm : commentMatch s
    · obtain ⟨ha, hb, hc⟩ := (commentMatchL_iff s.toList).mp hm
      simp only [hm, if_true]
      constructor
      · intro h; cases h
      · rintro (h | h | h)
        · exact absurd h ha
        · rw [hb] at h; cases h
        · exact absurd rfl (hc '\n' h)
    · have hnot : ¬ (s.toList ≠ [] ∧ hasDblDash s.toList = false ∧ ∀ c ∈ s.toList, c ≠ '\n') :=
        fun hcon => hm ((commentMatchL_iff s.toList).mpr hcon)
      simp only [hm, if_false]
      constructor
      · intro _
        by_cases h1 : s.toList = []
        · exact Or.inl h1
        · by_cases h2 : hasDblDash s.toList = true
          · exact Or.inr (Or.inl h2)
          · by_cases h3 : '\n' ∈ s.toList
            · exact Or.inr (Or.inr h3)
            · exact absurd ⟨h1, Bool.eq_false_iff.mpr h2, fun c hcm heq => h3 (heq ▸ hcm)⟩ hnot
      · intro _; trivial
  · intro s
    rw [hstr s]
    by_cases hm : commentMatch s
    · obtain ⟨ha, hb, hc⟩ := (commentMatchL_iff s.toList).mp hm
      simp only [hm, if_true]
      constructor
      · intro _
        exact ⟨ha, hb, fun hmem => hc '\n' hmem rfl⟩
      · intro _; trivial
    · have hnot : ¬ (s.toList ≠ [] ∧ hasDblDash s.toList = false ∧ ∀ c ∈ s.toList, c ≠ '\n') :=
        fun hcon => hm ((commentMatchL_iff s.toList).mpr hcon)
      simp only [hm, if_false]
      constructor
      · intro h; cases h
      · rintro ⟨h1, h2, h3⟩
        exact absurd ⟨h1, h2, fun c hcm heq => h3 (heq ▸ hcm)⟩ hnot

/-- C5 witness: the amended type-error conjunct applied at `None`, and the
error iff at a string containing `--`. -/
theorem c5_comment_validation_amended_witness :
    TAT_Comment_init .pnone = .error PyError.typeError ∧
    TAT_Comment_init (.pstr "a--b") = .error PyError.valueError := by
  constructor
  · exact c5_comment_validation_amended.1 .pnone (by decide) (by decide) (by decide)
  · exact (c5_comment_validation_amended.2.1 "a--b").mpr (Or.inr (Or.inl (by decide)))

/-- C6: the exclusive-ownership claim is broken by Python's mutable-default
argument rule: `SVG_Element.__init__`'s parameter default `properties: dict`
is one shared object, so two elements constructed without an explicit
properties argument share their `_properties` dict, and `set_props` on one
changes the other's map and subsequent export.  Evaluated at the failing
input: `a = SVG_Element("rect")`, `b = SVG_Element("circle")`,
`a.set_props(fill="red")` makes `b` export `<circle fill="red" />`. -/
theorem c6_shared_default_props_bug :
    SVG_Element_new_default "rect" ≠ SVG_Element_new_default "circle" ∧
    (set_props_kw initPropHeap (SVG_Element_new_default "rect")
        [("fill", .pstr "red")]).get (SVG_Element_new_default "circle").props_ref
      = [("fill", PyVal.pstr "red")] ∧
    element_export_heap
        (set_props_kw initPropHeap (SVG_Element_new_default "rect") [("fill", .pstr "red")])
        (SVG_Element_new_default "circle")
      = .ok (.node "circle" [("fill", PyVal.pstr "red")] []) := by
  refine ⟨by decide, rfl, rfl⟩

theorem add_attrs_kw_cons (attrs : List (String × PyVal)) (n : String) (v : PyVal)
    (rest : List (String × PyVal)) :
    add_attrs_kw attrs ((n, v) :: rest)
      = (match (if nameMatch n then none else some PyError.valueError : Option PyError) with
         | some e => (attrs, some e)
         | none =>
           match validate_value v (some attrValueMatch)
               [PyType.tstr, PyType.tint, PyType.tfloat] with
           | some e => (attrs, some e)
           | none => add_attrs_kw (setAttr attrs n v) rest) := rfl

/-- C2 counterexample: on `add_attrs({"a": "1", 123: "x"})` the claim
predicts a `TypeError` with the earlier valid entry `("a", "1")` already
applied, because entries are said to be validated and applied sequentially.
The code raises the `TypeError` during CPython's `**`-unpacking of the dict
(inside the recursive `self.add_attrs(**d)`), before any entry of that dict
is applied: the attribute dict stays empty. -/
theorem c2_add_attrs_counterexample :
    nameMatch "a" = true ∧ attrValueMatch "1" = true ∧
    add_attrs_full [] [PyVal.pdict [(.pstr "a", .pstr "1"), (.pint 123, .pstr "x")]] []
      = ([], some PyError.typeError) := by
  refine ⟨by decide, by decide, rfl⟩

/-- C2 (amended): `add_attrs` processes the positional dict arguments first
and the named arguments afterwards; a `None` dict argument is skipped and a
non-dict, non-`None` one raises `TypeError`; a dict argument whose keys are
all strings is merged entry by entry in insertion order, while a dict
containing a non-string attribute name raises `TypeError` before any of that
dict's entries is applied (Python validates all `**`-unpacked keys first);
within entry-by-entry processing, a name failing the tag-name grammar raises
`ValueError`, a value that is not a string, int or float raises `TypeError`,
a string value containing one of `"`, `<`, `>` raises `ValueError`, and a
valid entry is stored by dict assignment before the next entry is examined;
entries stored before a failure remain stored. -/
theorem c2_add_attrs_amended :
    (∀ (attrs : List (String × PyVal)) (dicts : List PyVal) (kwargs : List (String × PyVal)),
      add_attrs_full attrs dicts kwargs
        = (match add_attrs_dicts attrs dicts with
           | (a2, none) => add_attrs_kw a2 kwargs
           | (a2, some e) => (a2, some e))) ∧
    (∀ (attrs : List (String × PyVal)) (ds : List PyVal),
      add_attrs_dicts attrs (PyVal.pnone :: ds) = add_attrs_dicts attrs ds) ∧
    (∀ (attrs : List (String × PyVal)) (d : PyVal) (ds : List PyVal),
      pyTypeOf d ≠ PyType.tdict → pyTypeOf d ≠ PyType.tnone →
      add_attrs_dicts attrs (d :: ds) = (attrs, some PyError.typeError)) ∧
    (∀ (attrs : List (String × PyVal)) (entries : List (PyVal × PyVal)) (ds : List PyVal)
        (kw : List (String × PyVal)), dictKeyStrings entries = some kw →
      add_attrs_dicts attrs (PyVal.pdict entries :: ds)
        = (match add_attrs_kw attrs kw with
           | (a2, none) => add_attrs_dicts a2 ds
           | (a2, some e) => (a2, some e))) ∧
    (∀ (attrs : List (String × PyVal)) (entries : List (PyVal × PyVal)) (ds : List PyVal),
      dictKeyStrings entries = none →
      add_attrs_dicts attrs (PyVal.pdict entries :: ds) = (attrs, some PyError.typeError)) ∧
    (∀ (attrs : List (String × PyVal)) (n : String) (v : PyVal) (rest : List (String × PyVal)),
      nameMatch n = false →
      add_attrs_kw attrs ((n, v) :: rest) = (attrs, some PyError.valueError)) ∧
    (∀ (attrs : List (String × PyVal)) (n : String) (v : PyVal) (rest : List (String × PyVal)),
      nameMatch n = true →
      pyTypeOf v ≠ PyType.tstr → pyTypeOf v ≠ PyType.tint → pyTypeOf v ≠ PyType.tfloat →
      add_attrs_kw attrs ((n, v) :: rest) = (attrs, some PyError.typeError)) ∧
    (∀ (attrs : List (String × PyVal)) (n : String) (s : String) (rest : List (String × PyVal)),
      nameMatch n = true → attrValueMatch s = false →
      add_attrs_kw attrs ((n, PyVal.pstr s) :: rest) = (attrs, some PyError.valueError)) ∧
    (∀ (attrs : List (String × PyVal)) (n : String) (v : PyVal) (rest : List (String × PyVal)),
      nameMatch n = true →
      validate_value v (some attrValueMatch) [PyType.tstr, PyType.tint, PyType.tfloat] = none →
      add_attrs_kw attrs ((n, v) :: rest) = add_attrs_kw (setAttr attrs n v) rest) := by
  refine ⟨fun attrs dicts kwargs => rfl, fun attrs ds => rfl, ?_, ?_, ?_, ?_, ?_, ?_, ?_⟩
  · intro attrs d ds h1 h2
    cases d with
    | pstr s => rfl
    | pint n => rfl
    | pfloat f => rfl
    | pbool b => rfl
    | pnone => exact absurd rfl h2
    | pdict entries => exact absurd rfl h1
  · intro attrs entries ds kw hk
    rw [show add_attrs_dicts attrs (PyVal.pdict entries :: ds)
        = (match dictKeyStrings entries with
           | none => (attrs, some PyError.typeError)
           | some kw2 =>
             match add_attrs_kw attrs kw2 with
             | (a2, none) => add_attrs_dicts a2 ds
             | (a2, some e) => (a2, some e)) from rfl, hk]
  · intro attrs entries ds hk
    rw [show add_attrs_dicts attrs (PyVal.pdict entries :: ds)
        = (match dictKeyStrings entries with
           | none => (attrs, some PyError.typeError)
           | some kw2 =>
             match add_attrs_kw attrs kw2 with
             | (a2, none) => add_attrs_dicts a2 ds
             | (a2, some e) => (a2, some e)) from rfl, hk]
  · intro attrs n v rest hn
    rw [add_attrs_kw_cons, hn]
    rfl
  · intro attrs n v rest hn h1 h2 h3
    cases v with
    | pstr s => exact absurd rfl h1
    | pint m => exact absurd rfl h2
    | pfloat f => exact absurd rfl h3
    | pbool b => rw [add_attrs_kw_cons, hn]; rfl
    | pnone => rw [add_attrs_kw_cons, hn]; rfl
    | pdict d => rw [add_attrs_kw_cons, hn]; rfl
  · intro attrs n s rest hn hv
    rw [add_attrs_kw_cons, hn, validate_attr_value_str, hv]
    rfl
  · intro attrs n v rest hn hv
    rw [add_attrs_kw_cons, hn, hv]
    rfl

/-- C2 witness: the amended conjuncts applied at concrete entries — an
invalid name, a valid entry that is stored, and a non-dict positional
argument. -/
theorem c2_add_attrs_amended_witness :
    add_attrs_kw [] [("bad name", PyVal.pstr "1")] = ([], some PyError.valueError) ∧
    add_attrs_kw [] [("a", PyVal.pstr "1")] = add_attrs_kw (setAttr [] "a" (PyVal.pstr "1")) [] ∧
    add_attrs_dicts [] [PyVal.pint 5] = ([], some PyError.typeError) := by
  refine ⟨?_, ?_, ?_⟩
  · exact c2_add_attrs_amended.2.2.2.2.2.1 [] "bad name" (PyVal.pstr "1") [] (by decide)
  · exact c2_add_attrs_amended.2.2.2.2.2.2.2.2 [] "a" (PyVal.pstr "1") [] (by decide) rfl
  · exact c2_add_attrs_amended.2.2.1 [] (PyVal.pint 5) [] (by decide) (by decide)

/-- C7: `SVG_Element.export` builds exactly `TAT_Node(name)` with
`add_attrs(properties)` applied, propagating any validation failure;
`SVG_Text.export` is the element export with exactly one extra raw-text
child holding the text verbatim; `SVG_Group.export` is the element export
with the component exports appended as children in insertion order (a
failure in the element or in any component propagates, and the exported
children correspond to the components pointwise in order).  Export is a
function of the wrapper's current state, recomputed from it on each call. -/
theorem c7_export_spec :
    (∀ (name : String) (props : List (String × PyVal)),
      svg_export (.element name props)
        = (match TAT_Node_init (.pstr name) with
           | .error e => .error e
           | .ok t => node_add_attrs t
               [PyVal.pdict (props.map (fun q => (PyVal.pstr q.1, q.2)))] [])) ∧
    (∀ (content : String) (props : List (String × PyVal)) (nm : String)
        (a : List (String × PyVal)) (cs : List TAT_Entity),
      element_export "text" props = .ok (.node nm a cs) →
      svg_export (.text content props) = .ok (.node nm a (cs ++ [.raw content]))) ∧
    (∀ (name : String) (props : List (String × PyVal)) (comps : List SVG_Entity) (e : PyError),
      element_export name props = .error e →
      svg_export (.group name props comps) = .error e) ∧
    (∀ (name : String) (props : List (String × PyVal)) (comps : List SVG_Entity)
        (nm : String) (a : List (String × PyVal)) (cs : List TAT_Entity) (e : PyError),
      element_export name props = .ok (.node nm a cs) →
      svg_export_components comps = .error e →
      svg_export (.group name props comps) = .error e) ∧
    (∀ (name : String) (props : List (String × PyVal)) (comps : List SVG_Entity)
        (nm : String) (a : List (String × PyVal)) (cs : List TAT_Entity)
        (kids : List TAT_Entity),
      element_export name props = .ok (.node nm a cs) →
      svg_export_components comps = .ok kids →
      svg_export (.group name props comps) = .ok (.node nm a (cs ++ kids))) ∧
    (∀ (comps : List SVG_Entity) (kids : List TAT_Entity),
      svg_export_components comps = .ok kids →
      List.Forall₂ (fun c t => svg_export c = .ok t) comps kids) := by
  refine ⟨fun name props => rfl, ?_, ?_, ?_, ?_, svg_export_components_forall⟩
  · intro content props nm a cs h
    rw [show svg_export (.text content props)
        = (match element_export "text" props with
           | .error e => .error e
           | .ok n => node_add_nodes n [NodeArg.ent (.raw content)]) from rfl, h]
    rfl
  · intro name props comps e h
    rw [show svg_export (.group name props comps)
        = (match element_export name props with
           | .error e2 => .error e2
           | .ok n =>
             match svg_export_components comps with
             | .error e2 => .error e2
             | .ok kids => node_add_nodes n [NodeArg.lst (kids.map NodeArg.ent)]) from rfl, h]
  · intro name props comps nm a cs e h hcomp
    rw [show svg_export (.group name props comps)
        = (match element_export name props with
           | .error e2 => .error e2
           | .ok n =>
             match svg_export_components comps with
             | .error e2 => .error e2
             | .ok kids => node_add_nodes n [NodeArg.lst (kids.map NodeArg.ent)]) from rfl,
      h, hcomp]
  · intro name props comps nm a cs kids h hcomp
    rw [show svg_export (.group name props comps)
        = (match element_export name props with
           | .error e2 => .error e2
           | .ok n =>
             match svg_export_components comps with
             | .error e2 => .error e2
             | .ok kids2 => node_add_nodes n [NodeArg.lst (kids2.map NodeArg.ent)]) from rfl,
      h, hcomp]
    show node_add_nodes (.node nm a cs) [NodeArg.lst (kids.map NodeArg.ent)]
      = Except.ok (TAT_Entity.node nm a (cs ++ kids))
    rw [show node_add_nodes (.node nm a cs) [NodeArg.lst (kids.map NodeArg.ent)]
        = (match add_nodes_list cs [NodeArg.lst (kids.map NodeArg.ent)] with
           | (c2, none) => Except.ok (TAT_Entity.node nm a c2)
           | (_, some e2) => Except.error e2) from rfl]
    rw [show add_nodes_list cs [NodeArg.lst (kids.map NodeArg.ent)]
        = (match add_nodes_list cs (kids.map NodeArg.ent) with
           | (c2, none) => add_nodes_list c2 []
           | (c2, some e2) => (c2, some e2)) from rfl,
      add_nodes_list_ents kids cs]
    rfl

/-- C7 witness: the text conjunct applied at a concrete wrapper. -/
theorem c7_export_spec_witness :
    svg_export (.text "hi" [("x", PyVal.pint 3)])
      = .ok (.node "text" [("x", PyVal.pint 3)] ([] ++ [.raw "hi"])) :=
  c7_export_spec.2.1 "hi" [("x", PyVal.pint 3)] "text" [("x", PyVal.pint 3)] [] rfl

/-- C8: rendering is idempotent and side-effect-free — a successful
`format_string` run on the entity heap leaves every object unchanged, and
running it again from the resulting state yields the identical string and
state. -/
theorem c8_format_string_pure :
    ∀ (fuel : Nat) (h : EHeap) (sp : Spacer) (ref : Nat) (s : String) (h' : EHeap),
      format_string_heap fuel h sp ref = some (s, h') →
      h' = h ∧ format_string_heap fuel h' sp ref = some (s, h') := by
  intro fuel h sp ref s h' heq
  have hh := format_string_heap_unchanged fuel h sp ref s h' heq
  subst hh
  exact ⟨rfl, heq⟩

/-- C8 witness: the theorem applied to a one-object heap. -/
theorem c8_format_string_pure_witness :
    (⟨[EntityObj.raw "x"]⟩ : EHeap) = ⟨[EntityObj.raw "x"]⟩ ∧
    format_string_heap 1 ⟨[EntityObj.raw "x"]⟩ ⟨0, 1⟩ 0
      = some (Spacer.str ⟨0, 1⟩ ++ "x", ⟨[EntityObj.raw "x"]⟩) :=
  c8_format_string_pure 1 ⟨[EntityObj.raw "x"]⟩ ⟨0, 1⟩ 0 (Spacer.str ⟨0, 1⟩ ++ "x")
    ⟨[EntityObj.raw "x"]⟩ (by rw [format_string_heap_succ]; rfl)

/-- C9: when the attribute dict already holds a name, a later `add_attrs`
supplying that name — as a named argument or inside a dict argument —
overwrites the stored value in place: the key order is unchanged, the dict
does not grow, and the lookup yields the new value. -/
theorem c9_attr_overwrite :
    ∀ (attrs : List (String × PyVal)) (n : String) (v : PyVal),
      n ∈ attrs.map Prod.fst →
      nameMatch n = true →
      validate_value v (some attrValueMatch) [PyType.tstr, PyType.tint, PyType.tfloat] = none →
      add_attrs_full attrs [] [(n, v)] = (setAttr attrs n v, none) ∧
      add_attrs_full attrs [PyVal.pdict [(.pstr n, v)]] [] = (setAttr attrs n v, none) ∧
      (setAttr attrs n v).map Prod.fst = attrs.map Prod.fst ∧
      (setAttr attrs n v).length = attrs.length ∧
      (setAttr attrs n v).lookup n = some v := by
  intro attrs n v hmem hn hv
  have hkw : add_attrs_kw attrs [(n, v)] = (setAttr attrs n v, none) := by
    rw [add_attrs_kw_cons, hn, hv]
    rfl
  refine ⟨hkw, ?_, setAttr_keys_of_mem v hmem, ?_, setAttr_lookup_of_mem v hmem⟩
  · have h1 : add_attrs_dicts attrs [PyVal.pdict [(.pstr n, v)]] = (setAttr attrs n v, none) := by
      rw [show add_attrs_dicts attrs [PyVal.pdict [(.pstr n, v)]]
          = (match add_attrs_kw attrs [(n, v)] with
             | (a2, none) => add_attrs_dicts a2 []
             | (a2, some e) => (a2, some e)) from rfl, hkw]
      rfl
    rw [show add_attrs_full attrs [PyVal.pdict [(.pstr n, v)]] []
        = (match add_attrs_dicts attrs [PyVal.pdict [(.pstr n, v)]] with
           | (a2, none) => add_attrs_kw a2 []
           | (a2, some e) => (a2, some e)) from rfl, h1]
    rfl
  · rw [← List.length_map (setAttr attrs n v) Prod.fst, setAttr_keys_of_mem v hmem,
      List.length_map]

/-- C9 witness: overwriting a present key at a concrete dict. -/
theorem c9_attr_overwrite_witness :
    add_attrs_full [("a", PyVal.pstr "1"), ("b", PyVal.pstr "2")] [] [("a", PyVal.pstr "9")]
        = (setAttr [("a", PyVal.pstr "1"), ("b", PyVal.pstr "2")] "a" (PyVal.pstr "9"), none) ∧
    add_attrs_full [("a", PyVal.pstr "1"), ("b", PyVal.pstr "2")]
        [PyVal.pdict [(.pstr "a", PyVal.pstr "9")]] []
        = (setAttr [("a", PyVal.pstr "1"), ("b", PyVal.pstr "2")] "a" (PyVal.pstr "9"), none) ∧
    (setAttr [("a", PyVal.pstr "1"), ("b", PyVal.pstr "2")] "a" (PyVal.pstr "9")).map Prod.fst
        = [("a", PyVal.pstr "1"), ("b", PyVal.pstr "2")].map Prod.fst ∧
    (setAttr [("a", PyVal.pstr "1"), ("b", PyVal.pstr "2")] "a" (PyVal.pstr "9")).length
        = [("a", PyVal.pstr "1"), ("b", PyVal.pstr "2")].length ∧
    (setAttr [("a", PyVal.pstr "1"), ("b", PyVal.pstr "2")] "a" (PyVal.pstr "9")).lookup "a"
        = some (PyVal.pstr "9") :=
  c9_attr_overwrite [("a", PyVal.pstr "1"), ("b", PyVal.pstr "2")] "a" (PyVal.pstr "9")
    (by simp) (by decide) rfl

/-- C10: `str` of any wrapper is exactly the rendering of its `export()` at
indentation level 0 followed by one newline, while `format_string` itself
appends no trailing newline: a rendered node or comment ends in `>` (never
in a newline), and a raw-text entity renders as the indent plus its stored
content with nothing appended. -/
theorem c10_str_trailing_newline :
    (∀ (e : SVG_Entity) (t : TAT_Entity), svg_export e = .ok t →
      svg_str e = .ok (format_string ⟨0, 1⟩ t ++ "\n")) ∧
    (∀ (sp : Spacer) (name : String) (attrs : List (String × PyVal))
        (children : List TAT_Entity),
      lastChar (format_string sp (.node name attrs children)) = some '>' ∧
      lastChar (format_string sp (.node name attrs children)) ≠ some '\n') ∧
    (∀ (sp : Spacer) (content : PyVal),
      lastChar (format_string sp (.comment content)) = some '>' ∧
      lastChar (format_string sp (.comment content)) ≠ some '\n') ∧
    (∀ (sp : Spacer) (content : String),
      format_string sp (.raw content) = sp.str ++ content) := by
  refine ⟨?_, ?_, ?_, fun sp content => rfl⟩
  · intro e t h
    simp [svg_str, h]
  · intro sp name attrs children
    have hgt := lastChar_format_string_node sp name attrs children
    exact ⟨hgt, by rw [hgt]; decide⟩
  · intro sp content
    have hgt := lastChar_format_string_comment sp content
    exact ⟨hgt, by rw [hgt]; decide⟩

/-- C10 witness: the wrapper conjunct applied at a concrete document. -/
theorem c10_str_trailing_newline_witness :
    svg_str (SVG_Document_mk 2 3)
      = .ok (format_string ⟨0, 1⟩ (.node "svg" (SVG_Document_props 2 3) []) ++ "\n") :=
  c10_str_trailing_newline.1 (SVG_Document_mk 2 3)
    (.node "svg" (SVG_Document_props 2 3) []) rfl
